import Mathlib

/-
Verification of the beeline-go `internal` package (internal/internal.go):
trace-header parsing, span identity propagation, and per-parent rollup
aggregation. Events are modelled as association lists from field name to
value with overwrite-on-add lookup semantics, matching the libhoney
`Event.AddField` / `Event.Fields()` map interface. Machine floats that
carry millisecond durations are modelled as rationals (every duration
arithmetic exercised here is exact in binary floating point as well).
Random UUID generation (`uuid.NewV4`) is modelled by passing the freshly
drawn identifier strings as explicit arguments. The request context that
may carry a parent event (`beeline.ContextEvent`) is modelled as an
`Option Event`.
-/

namespace Beeline

/-- A libhoney event field value: Go `interface\x7b\x7d` restricted to the
types this package actually stores (int counters, float64 durations,
strings). -/
inductive FieldValue where
  | vInt : Int → FieldValue
  | vFloat : ℚ → FieldValue
  | vStr : String → FieldValue
  deriving DecidableEq, Repr

/-- A libhoney event, seen through its field map: an insertion list of
(name, value) pairs where later `AddField` calls shadow earlier ones. -/
abbrev Event := List (String × FieldValue)

/-- Go `ev.AddField(k, v)`: set field `k` to `v`, overwriting any previous
value (newest binding is found first by `fieldsAt`). -/
def addField (ev : Event) (k : String) (v : FieldValue) : Event :=
  (k, v) :: ev

/-- Go `ev.Fields()[k]` with the comma-ok idiom: the current value of field
`k`, or `none` when the field is absent. -/
def fieldsAt (ev : Event) (k : String) : Option FieldValue :=
  match ev with
  | [] => none
  | (k', v) :: rest => if k' = k then some v else fieldsAt rest k

/-- Go type assertion `x.(int)` followed by `if !ok then 0`: reads an int
field value, any absent or non-int value coerces to zero. -/
def asInt : Option FieldValue → Int
  | some (FieldValue.vInt n) => n
  | _ => 0

/-- Go type assertion `x.(float64)` followed by `if !ok then 0`: reads a
float field value, any absent or non-float value coerces to zero. -/
def asFloat : Option FieldValue → ℚ
  | some (FieldValue.vFloat q) => q
  | _ => 0

/-- Go `fmt.Sprintf("%s", x)` on an `interface\x7b\x7d` field value: a
string prints verbatim; a non-string prints a `%!s` verb error (its exact
payload text is irrelevant to and unused by every theorem below, which
only exercise the string and absent cases); an absent field is a nil
interface. -/
def goStr : Option FieldValue → String
  | some (FieldValue.vStr s) => s
  | some (FieldValue.vInt n) => "%!s(int=" ++ toString n ++ ")"
  | some (FieldValue.vFloat q) => "%!s(float64=" ++ toString q ++ ")"
  | none => "%!s(<nil>)"

/-- Character-list core of Go `strings.Split` for a single-character
separator (the only separators this package uses: `;`, `=`, `.`): split
around every occurrence of `sep`, keeping empty groups, so the empty
input yields one empty group just as `strings.Split("", sep)` yields
`[""]`. Structurally recursive so that concrete inputs reduce
definitionally. -/
def splitChars (sep : Char) : List Char → List (List Char)
  | [] => [[]]
  | c :: rest =>
      if c = sep then [] :: splitChars sep rest
      else
        match splitChars sep rest with
        | [] => [[c]]
        | g :: gs => (c :: g) :: gs

/-- Go `strings.Split(s, sep)` for a single-character separator `sep`. -/
def splitGo (sep : Char) (s : String) : List String :=
  (splitChars sep s.data).map (fun cs => String.mk cs)

/-- One iteration of the loop in `parseTraceHeader` (internal.go:65-75):
split one semicolon-delimited segment on `=`; if it does not split into
exactly two parts it is skipped, otherwise record it under
`request.header.aws_trace_id.<key>` and, when the key is `Root`, take
`keyval[0]` (the key — as the source literally does) as the trace-ID
candidate. The state is the event together with the current candidate. -/
def awsStep (st : Event × String) (seg : String) : Event × String :=
  match splitGo '=' seg with
  | [k, v] =>
      (addField st.1 ("request.header.aws_trace_id." ++ k) (FieldValue.vStr v),
       if k = "Root" then k else st.2)
  | _ => st

/-- `parseTraceHeader` (internal.go:59-87). Inputs are the two header
values as returned by `req.Header.Get` (empty string when absent) and the
UUID string that `uuid.NewV4` would yield if the fallback is reached.
Returns the event with the recorded header fields and the trace ID. -/
def parseTraceHeader (awsHeader requestID genID : String) (ev : Event) :
    Event × String :=
  let st0 : Event × String :=
    if awsHeader ≠ "" then (splitGo ';' awsHeader).foldl awsStep (ev, "")
    else (ev, "")
  let st1 : Event × String :=
    if requestID ≠ "" then
      (addField st0.1 "request.header.request_id" (FieldValue.vStr requestID),
       requestID)
    else st0
  if st1.2 = "" then (st1.1, genID) else st1

/-- The projection of `*http.Request` that `AddRequestProps` reads: plain
request metadata plus the two tracing headers (empty string models an
absent header, as `Header.Get` returns). -/
structure Request where
  method : String
  path : String
  host : String
  proto : String
  contentLength : Int
  remoteAddr : String
  userAgent : String
  awsHeader : String
  requestID : String

/-- `AddRequestProps` (internal.go:26-45): populate the root span's event
with request metadata, resolve the trace ID via `parseTraceHeader`
(`genTrace` is the UUID drawn if no header yields one), and fabricate the
root span ID `genSpan`. -/
def AddRequestProps (req : Request) (ev : Event) (genTrace genSpan : String) :
    Event :=
  let ev := addField ev "meta.type" (FieldValue.vStr "http request")
  let ev := addField ev "request.method" (FieldValue.vStr req.method)
  let ev := addField ev "request.path" (FieldValue.vStr req.path)
  let ev := addField ev "request.host" (FieldValue.vStr req.host)
  let ev := addField ev "request.proto" (FieldValue.vStr req.proto)
  let ev := addField ev "request.content_length" (FieldValue.vInt req.contentLength)
  let ev := addField ev "request.remote_addr" (FieldValue.vStr req.remoteAddr)
  let ev := addField ev "request.header.user_agent" (FieldValue.vStr req.userAgent)
  let st := parseTraceHeader req.awsHeader req.requestID genTrace ev
  let ev := addField st.1 "trace.trace_id" (FieldValue.vStr st.2)
  addField ev "trace.span_id" (FieldValue.vStr genSpan)

/-- `addTraceID` (internal.go:172-184): when the context carries a parent
event, copy its `trace.trace_id` (if set), record its `trace.span_id` (if
set) as this span's `trace.parent_id`, and fabricate the fresh span ID
`genSpan`; with no parent in context the event is untouched. -/
def addTraceID (ctx : Option Event) (ev : Event) (genSpan : String) : Event :=
  match ctx with
  | none => ev
  | some parentEv =>
      let ev := match fieldsAt parentEv "trace.trace_id" with
        | some id => addField ev "trace.trace_id" id
        | none => ev
      let ev := match fieldsAt parentEv "trace.span_id" with
        | some id => addField ev "trace.parent_id" id
        | none => ev
      addField ev "trace.span_id" (FieldValue.vStr genSpan)

/-- `rollup` (internal.go:125-170): if the context carries no parent
event, do nothing; otherwise derive the four `totals.*` keys from the
child's `meta.type` and `db.call` fields and add the duration and a count
of one onto the parent's existing counters (absent or wrongly-typed
counters read as zero). Returns the updated parent (the child event is
only read). -/
def rollup (ctx : Option Event) (ev : Event) (dur : ℚ) : Option Event :=
  match ctx with
  | none => none
  | some parentEv =>
      let metaType := goStr (fieldsAt ev "meta.type")
      let dbCall := goStr (fieldsAt ev "db.call")
      let totalMetaCountKey := "totals." ++ metaType ++ "_count"
      let totalMetaDurKey := "totals." ++ metaType ++ "_duration_ms"
      let totalCallCountKey := "totals." ++ metaType ++ "_" ++ dbCall ++ "_count"
      let totalCallDurKey := "totals." ++ metaType ++ "_" ++ dbCall ++ "_duration_ms"
      let totalTypeCountVal := asInt (fieldsAt parentEv totalMetaCountKey)
      let totalTypeDurVal := asFloat (fieldsAt parentEv totalMetaDurKey)
      let totalCallCountVal := asInt (fieldsAt parentEv totalCallCountKey)
      let totalCallDurVal := asFloat (fieldsAt parentEv totalCallDurKey)
      let p := addField parentEv totalMetaCountKey (FieldValue.vInt (totalTypeCountVal + 1))
      let p := addField p totalMetaDurKey (FieldValue.vFloat (totalTypeDurVal + dur))
      let p := addField p totalCallCountKey (FieldValue.vInt (totalCallCountVal + 1))
      some (addField p totalCallDurKey (FieldValue.vFloat (totalCallDurVal + dur)))

/-- The event-construction part of `BuildDBEvent` (internal.go:93-119):
the new event starts from the builder's default fields, gets trace
linkage from the context via `addTraceID` (with fresh span ID `genSpan`),
records `db.call` as the last dot-separated chunk of the caller's name
(`callName` stands for what `runtime.FuncForPC(pc).Name()` returned), and
records the query string and arguments when present. -/
def buildDBEventFields (ctx : Option Event) (builderFields : Event)
    (query : String) (args : Option FieldValue) (callName genSpan : String) :
    Event :=
  let ev := builderFields
  let ev := addTraceID ctx ev genSpan
  let callNameChunks := splitGo '.' callName
  let ev := addField ev "db.call" (FieldValue.vStr (callNameChunks.getLastD ""))
  let ev := if query ≠ "" then addField ev "db.query" (FieldValue.vStr query) else ev
  match args with
  | some a => addField ev "db.query_args" a
  | none => ev

/-- The finish closure `fn` returned by `BuildDBEvent` (internal.go:96-104):
stop the timer (the measured duration `dur` is passed in), roll the
duration up into the parent carried by the context, stamp `duration_ms`
(and `error` when one is supplied) on the child, and dispatch the child
via `ev.Send()`. Returns the updated parent and the dispatched child. -/
def finish (ctx : Option Event) (ev : Event) (dur : ℚ) (err : Option String) :
    Option Event × Event :=
  let parent := rollup ctx ev dur
  let ev := addField ev "duration_ms" (FieldValue.vFloat dur)
  let ev := match err with
    | some e => addField ev "error" (FieldValue.vStr e)
    | none => ev
  (parent, ev)

/-- The read phase of `rollup` (internal.go:142-162): the snapshot of the
four counter values taken from the parent before any write happens. Under
concurrent `finish` calls the Go code performs this whole read phase and
then the whole write phase with no synchronization (its own comment:
"this is racy and will stomp each other"). -/
structure RollupSnap where
  typeCount : Int
  typeDur : ℚ
  callCount : Int
  callDur : ℚ
  deriving DecidableEq, Repr

/-- The read phase of `rollup`: take the snapshot of the parent's four
counters named by the child's `meta.type` and `db.call`. -/
def rollupRead (parentEv ev : Event) : RollupSnap :=
  let metaType := goStr (fieldsAt ev "meta.type")
  let dbCall := goStr (fieldsAt ev "db.call")
  { typeCount := asInt (fieldsAt parentEv ("totals." ++ metaType ++ "_count"))
    typeDur := asFloat (fieldsAt parentEv ("totals." ++ metaType ++ "_duration_ms"))
    callCount := asInt (fieldsAt parentEv ("totals." ++ metaType ++ "_" ++ dbCall ++ "_count"))
    callDur := asFloat (fieldsAt parentEv ("totals." ++ metaType ++ "_" ++ dbCall ++ "_duration_ms")) }

/-- The write phase of `rollup` (internal.go:164-169): write the four
counters onto the parent, computed from a previously taken snapshot. -/
def rollupWrite (parentEv ev : Event) (snap : RollupSnap) (dur : ℚ) : Event :=
  let metaType := goStr (fieldsAt ev "meta.type")
  let dbCall := goStr (fieldsAt ev "db.call")
  let p := addField parentEv ("totals." ++ metaType ++ "_count")
    (FieldValue.vInt (snap.typeCount + 1))
  let p := addField p ("totals." ++ metaType ++ "_duration_ms")
    (FieldValue.vFloat (snap.typeDur + dur))
  let p := addField p ("totals." ++ metaType ++ "_" ++ dbCall ++ "_count")
    (FieldValue.vInt (snap.callCount + 1))
  addField p ("totals." ++ metaType ++ "_" ++ dbCall ++ "_duration_ms")
    (FieldValue.vFloat (snap.callDur + dur))

/-- Coherence of the two-phase decomposition: an uninterrupted `rollup`
is exactly its read phase followed by its write phase. -/
theorem rollup_eq_read_then_write (p ev : Event) (dur : ℚ) :
    rollup (some p) ev dur = some (rollupWrite p ev (rollupRead p ev) dur) := rfl

/-- Looking a field up after `addField` finds the new value at the added
key and is unchanged elsewhere. -/
@[simp] theorem fieldsAt_addField (ev : Event) (k k' : String) (v : FieldValue) :
    fieldsAt (addField ev k v) k' = if k = k' then some v else fieldsAt ev k' := rfl

/-- C1: the claim says the Root segment's *value* becomes the trace-ID
candidate. The code does not: at the documented example header (and with
no Request-Id header) `parseTraceHeader` returns the literal key string
"Root", and `AddRequestProps` stores `trace.trace_id = "Root"` rather
than the Root segment's value, because internal.go:73 assigns
`keyval[0]` where its own doc comment (internal.go:52-58) describes the
value as the ID. -/
theorem C1_root_segment_yields_key_not_value :
    (parseTraceHeader
      "Self=1-67891234-12456789abcdef012345678;Root=1-67891233-abcdef012345678912345678;CalledFrom=app"
      "" "11111111-2222-3333-4444-555555555555" []).2 = "Root" ∧
    fieldsAt (AddRequestProps
      ⟨"GET", "/", "example.com", "HTTP/1.1", 0, "127.0.0.1:1234", "ua",
        "Root=1-67891233-abcdef012345678912345678", ""⟩
      [] "11111111-2222-3333-4444-555555555555" "66666666-7777-8888-9999-000000000000")
      "trace.trace_id" = some (FieldValue.vStr "Root") :=
  ⟨rfl, rfl⟩

/-- C3: a child span created while the context carries a parent span
event copies the parent's `trace.trace_id`, sets `trace.parent_id` to
the parent's `trace.span_id`, and receives the freshly fabricated span
ID as its own `trace.span_id`. -/
theorem C3_child_trace_linkage (parentEv ev : Event) (t s : FieldValue) (genSpan : String)
    (ht : fieldsAt parentEv "trace.trace_id" = some t)
    (hs : fieldsAt parentEv "trace.span_id" = some s) :
    fieldsAt (addTraceID (some parentEv) ev genSpan) "trace.trace_id" = some t ∧
    fieldsAt (addTraceID (some parentEv) ev genSpan) "trace.parent_id" = some s ∧
    fieldsAt (addTraceID (some parentEv) ev genSpan) "trace.span_id"
      = some (FieldValue.vStr genSpan) := by
  simp [addTraceID, ht, hs]

/-- Witness for C3 at a concrete parent event. -/
theorem C3_child_trace_linkage_witness :
    fieldsAt (addTraceID (some [("trace.trace_id", FieldValue.vStr "T"),
        ("trace.span_id", FieldValue.vStr "S")]) [] "G") "trace.trace_id"
      = some (FieldValue.vStr "T") ∧
    fieldsAt (addTraceID (some [("trace.trace_id", FieldValue.vStr "T"),
        ("trace.span_id", FieldValue.vStr "S")]) [] "G") "trace.parent_id"
      = some (FieldValue.vStr "S") ∧
    fieldsAt (addTraceID (some [("trace.trace_id", FieldValue.vStr "T"),
        ("trace.span_id", FieldValue.vStr "S")]) [] "G") "trace.span_id"
      = some (FieldValue.vStr "G") :=
  C3_child_trace_linkage [("trace.trace_id", FieldValue.vStr "T"),
    ("trace.span_id", FieldValue.vStr "S")] [] (FieldValue.vStr "T")
    (FieldValue.vStr "S") "G" (by decide) (by decide)

/-- C5: finishing a child span with no parent in context performs no
rollup (the context still yields no parent event afterwards), stamps
`duration_ms` on the child, leaves every other child field unchanged,
and the closure runs to completion so the child is still dispatched. -/
theorem C5_finish_without_parent (ev : Event) (dur : ℚ) :
    (finish none ev dur none).1 = none ∧
    fieldsAt (finish none ev dur none).2 "duration_ms" = some (FieldValue.vFloat dur) ∧
    (∀ k, k ≠ "duration_ms" → fieldsAt (finish none ev dur none).2 k = fieldsAt ev k) := by
  refine ⟨rfl, by simp [finish, rollup], ?_⟩
  intro k hk
  simp [finish, rollup, Ne.symm hk]

/-- Witness for C5 at a concrete child event, duration 5. -/
theorem C5_finish_without_parent_witness :
    (finish none [("db.call", FieldValue.vStr "query")] 5 none).1 = none ∧
    fieldsAt (finish none [("db.call", FieldValue.vStr "query")] 5 none).2 "duration_ms"
      = some (FieldValue.vFloat 5) ∧
    fieldsAt (finish none [("db.call", FieldValue.vStr "query")] 5 none).2 "db.call"
      = fieldsAt [("db.call", FieldValue.vStr "query")] "db.call" := by
  obtain ⟨h1, h2, h3⟩ := C5_finish_without_parent [("db.call", FieldValue.vStr "query")] 5
  exact ⟨h1, h2, h3 "db.call" (by decide)⟩

/-- C6: whenever the Request-Id header is non-empty its value becomes the
trace ID regardless of any AWS-derived candidate, and it is also stored
as the `request.header.request_id` field of the root span. -/
theorem C6_request_id_wins (req : Request) (ev : Event) (genTrace genSpan : String)
    (h : req.requestID ≠ "") :
    fieldsAt (AddRequestProps req ev genTrace genSpan) "trace.trace_id"
      = some (FieldValue.vStr req.requestID) ∧
    fieldsAt (AddRequestProps req ev genTrace genSpan) "request.header.request_id"
      = some (FieldValue.vStr req.requestID) := by
  simp [AddRequestProps, parseTraceHeader, h]

/-- Witness for C6 at a concrete request carrying both headers. -/
theorem C6_request_id_wins_witness :
    fieldsAt (AddRequestProps
      ⟨"GET", "/", "example.com", "HTTP/1.1", 0, "127.0.0.1:1234", "ua",
        "Root=1-111", "abc-123"⟩ [] "G1" "G2") "trace.trace_id"
      = some (FieldValue.vStr "abc-123") ∧
    fieldsAt (AddRequestProps
      ⟨"GET", "/", "example.com", "HTTP/1.1", 0, "127.0.0.1:1234", "ua",
        "Root=1-111", "abc-123"⟩ [] "G1" "G2") "request.header.request_id"
      = some (FieldValue.vStr "abc-123") :=
  C6_request_id_wins
    ⟨"GET", "/", "example.com", "HTTP/1.1", 0, "127.0.0.1:1234", "ua",
      "Root=1-111", "abc-123"⟩ [] "G1" "G2" (by decide)

/-- C8: a semicolon-separated segment of the AWS trace header that does
not split into exactly two parts on the equals sign is skipped: removing
it from the segment list leaves the header-parsing fold — both the
recorded `request.header.aws_trace_id.*` fields and the trace-ID
candidate — unchanged, and parsing still completes. -/
theorem C8_malformed_segment_skipped (pre post : List String) (st : Event × String)
    (seg : String) (h : (splitGo '=' seg).length ≠ 2) :
    List.foldl awsStep st (pre ++ seg :: post)
      = List.foldl awsStep st (pre ++ post) := by
  have hstep : ∀ st' : Event × String, awsStep st' seg = st' := by
    intro st'
    rcases hh : splitGo '=' seg with _ | ⟨a, _ | ⟨b, _ | ⟨c, t⟩⟩⟩
    · simp [awsStep, hh]
    · simp [awsStep, hh]
    · exact absurd (by rw [hh]; rfl) h
    · simp [awsStep, hh]
  induction pre generalizing st with
  | nil => simp [hstep]
  | cons x xs ih => simpa using ih (awsStep st x)

/-- Witness for C8: dropping the malformed segment "garbage" from a
concrete header's segment list changes nothing. -/
theorem C8_malformed_segment_skipped_witness :
    List.foldl awsStep (([] : Event), "") (["Root=1-111"] ++ "garbage" :: ["CalledFrom=app"])
      = List.foldl awsStep (([] : Event), "") (["Root=1-111"] ++ ["CalledFrom=app"]) :=
  C8_malformed_segment_skipped ["Root=1-111"] ["CalledFrom=app"] (([] : Event), "")
    "garbage" (by decide)

/-- The per-segment fold of the AWS header never touches event fields
outside the `request.header.aws_trace_id.` namespace. -/
theorem fieldsAt_awsFold (segs : List String) (st : Event × String) (k : String)
    (hk : ∀ k', "request.header.aws_trace_id." ++ k' ≠ k) :
    fieldsAt (List.foldl awsStep st segs).1 k = fieldsAt st.1 k := by
  induction segs generalizing st with
  | nil => rfl
  | cons s ss ih =>
      rw [List.foldl_cons, ih]
      rcases hh : splitGo '=' s with _ | ⟨a, _ | ⟨b, _ | ⟨c, tl⟩⟩⟩
      · simp [awsStep, hh]
      · simp [awsStep, hh]
      · simp [awsStep, hh, hk a]
      · simp [awsStep, hh]

/-- The fallback branch of `parseTraceHeader` replaces only the returned
trace ID, never the event. -/
theorem ite_pair_fst (c : Prop) [Decidable c] (st : Event × String) (g : String) :
    (if c then (st.1, g) else st).1 = st.1 := by
  split <;> rfl

/-- `parseTraceHeader` only ever writes `request.header.aws_trace_id.*`
and `request.header.request_id` fields; any other field is left as it
was on the incoming event. -/
theorem parseTraceHeader_fieldsAt_frame (awsHeader requestID genID : String)
    (ev : Event) (k : String)
    (h1 : ∀ k', "request.header.aws_trace_id." ++ k' ≠ k)
    (h2 : k ≠ "request.header.request_id") :
    fieldsAt (parseTraceHeader awsHeader requestID genID ev).1 k = fieldsAt ev k := by
  have hfold : fieldsAt (List.foldl awsStep (ev, "") (splitGo ';' awsHeader)).1 k
      = fieldsAt ev k := fieldsAt_awsFold _ _ _ h1
  simp only [parseTraceHeader]
  rw [ite_pair_fst]
  by_cases hr : requestID = "" <;> by_cases ha : awsHeader = "" <;>
    simp [hr, ha, Ne.symm h2, hfold]

/-- Two strings of different lengths differ. -/
theorem string_ne_of_length (a b : String) (h : a.length ≠ b.length) : a ≠ b :=
  fun he => h (by rw [he])

/-- Two strings whose final characters differ are different strings. -/
theorem string_ne_of_getLast (a b : String)
    (h : a.data.getLast? ≠ b.data.getLast?) : a ≠ b :=
  fun he => h (by rw [he])

/-- The final character of an appended string comes from its non-empty
right part. -/
theorem getLast_append (x y : String) (hy : y.data ≠ []) :
    (x ++ y).data.getLast? = y.data.getLast? := by
  rw [String.data_append]
  exact List.getLast?_append_of_ne_nil x.data hy

/-- Length of the literal key prefix used by the rollup counters. -/
theorem len_totals : ("totals." : String).length = 7 := rfl

/-- Length of the literal count-key suffix. -/
theorem len_count : ("_count" : String).length = 6 := rfl

/-- Length of the literal duration-key suffix. -/
theorem len_durms : ("_duration_ms" : String).length = 12 := rfl

/-- Length of the literal underscore separator. -/
theorem len_us : ("_" : String).length = 1 := rfl

/-- The four rollup keys are pairwise distinct for every choice of
`meta.type` and `db.call`: duration key vs count key of the meta type. -/
theorem k2_ne_k1 (mt : String) :
    "totals." ++ mt ++ "_duration_ms" ≠ "totals." ++ mt ++ "_count" := by
  apply string_ne_of_length
  simp only [String.length_append, len_totals, len_count, len_durms, len_us]
  omega

/-- Call count key vs meta-type count key. -/
theorem k3_ne_k1 (mt dc : String) :
    "totals." ++ mt ++ "_" ++ dc ++ "_count" ≠ "totals." ++ mt ++ "_count" := by
  apply string_ne_of_length
  simp only [String.length_append, len_totals, len_count, len_durms, len_us]
  omega

/-- Call duration key vs meta-type count key. -/
theorem k4_ne_k1 (mt dc : String) :
    "totals." ++ mt ++ "_" ++ dc ++ "_duration_ms" ≠ "totals." ++ mt ++ "_count" := by
  apply string_ne_of_length
  simp only [String.length_append, len_totals, len_count, len_durms, len_us]
  omega

/-- Call count key vs meta-type duration key (the one pair where lengths
can coincide, settled by the final character). -/
theorem k3_ne_k2 (mt dc : String) :
    "totals." ++ mt ++ "_" ++ dc ++ "_count" ≠ "totals." ++ mt ++ "_duration_ms" := by
  apply string_ne_of_getLast
  rw [getLast_append _ "_count" (by decide), getLast_append _ "_duration_ms" (by decide)]
  decide

/-- Call duration key vs meta-type duration key. -/
theorem k4_ne_k2 (mt dc : String) :
    "totals." ++ mt ++ "_" ++ dc ++ "_duration_ms" ≠ "totals." ++ mt ++ "_duration_ms" := by
  apply string_ne_of_length
  simp only [String.length_append, len_totals, len_count, len_durms, len_us]
  omega

/-- Call duration key vs call count key. -/
theorem k4_ne_k3 (mt dc : String) :
    "totals." ++ mt ++ "_" ++ dc ++ "_duration_ms"
      ≠ "totals." ++ mt ++ "_" ++ dc ++ "_count" := by
  apply string_ne_of_length
  simp only [String.length_append, len_totals, len_count, len_durms, len_us]
  omega

/-- No AWS-namespaced header field key collides with `trace.parent_id`. -/
theorem awsKey_ne_parent_id (k' : String) :
    "request.header.aws_trace_id." ++ k' ≠ "trace.parent_id" := by
  apply string_ne_of_length
  have hp : ("request.header.aws_trace_id." : String).length = 28 := rfl
  have ht : ("trace.parent_id" : String).length = 15 := rfl
  simp only [String.length_append, hp, ht]
  omega

/-- C2: with a parent span in context whose rollup counters do not yet
exist, three sequential child spans of operation type "query" (db
builder events, caller name ending in `query`) finished with durations
10, 20 and 30 ms leave the parent carrying `totals.db_count = 3`,
`totals.db_duration_ms = 60`, `totals.db_query_count = 3` and
`totals.db_query_duration_ms = 60`. -/
theorem C2_three_sequential_query_children (p bld : Event) (tt ts : FieldValue)
    (g1 g2 g3 : String)
    (htt : fieldsAt p "trace.trace_id" = some tt)
    (hts : fieldsAt p "trace.span_id" = some ts)
    (hmb : fieldsAt bld "meta.type" = some (FieldValue.vStr "db"))
    (hc : fieldsAt p "totals.db_count" = none)
    (hd : fieldsAt p "totals.db_duration_ms" = none)
    (hqc : fieldsAt p "totals.db_query_count" = none)
    (hqd : fieldsAt p "totals.db_query_duration_ms" = none) :
    ∃ q,
      (let p0 : Option Event := some p
       let c1 := buildDBEventFields p0 bld "" none "main.query" g1
       let p1 := (finish p0 c1 10 none).1
       let c2 := buildDBEventFields p1 bld "" none "main.query" g2
       let p2 := (finish p1 c2 20 none).1
       let c3 := buildDBEventFields p2 bld "" none "main.query" g3
       (finish p2 c3 30 none).1) = some q ∧
      fieldsAt q "totals.db_count" = some (FieldValue.vInt 3) ∧
      fieldsAt q "totals.db_duration_ms" = some (FieldValue.vFloat 60) ∧
      fieldsAt q "totals.db_query_count" = some (FieldValue.vInt 3) ∧
      fieldsAt q "totals.db_query_duration_ms" = some (FieldValue.vFloat 60) := by
  refine ⟨_, rfl, ?_⟩
  simp [finish, buildDBEventFields, addTraceID, htt, hts, rollup, goStr, asInt,
    asFloat, fieldsAt, addField, hmb, hc, hd, hqc, hqd, splitGo, splitChars]
  norm_num

/-- Witness for C2 at a concrete parent and builder. -/
theorem C2_three_sequential_query_children_witness :
    ∃ q,
      (let p0 : Option Event := some [("trace.trace_id", FieldValue.vStr "T"),
         ("trace.span_id", FieldValue.vStr "S")]
       let c1 := buildDBEventFields p0 [("meta.type", FieldValue.vStr "db")] "" none
         "main.query" "ga"
       let p1 := (finish p0 c1 10 none).1
       let c2 := buildDBEventFields p1 [("meta.type", FieldValue.vStr "db")] "" none
         "main.query" "gb"
       let p2 := (finish p1 c2 20 none).1
       let c3 := buildDBEventFields p2 [("meta.type", FieldValue.vStr "db")] "" none
         "main.query" "gc"
       (finish p2 c3 30 none).1) = some q ∧
      fieldsAt q "totals.db_count" = some (FieldValue.vInt 3) ∧
      fieldsAt q "totals.db_duration_ms" = some (FieldValue.vFloat 60) ∧
      fieldsAt q "totals.db_query_count" = some (FieldValue.vInt 3) ∧
      fieldsAt q "totals.db_query_duration_ms" = some (FieldValue.vFloat 60) :=
  C2_three_sequential_query_children
    [("trace.trace_id", FieldValue.vStr "T"), ("trace.span_id", FieldValue.vStr "S")]
    [("meta.type", FieldValue.vStr "db")] (FieldValue.vStr "T") (FieldValue.vStr "S")
    "ga" "gb" "gc" rfl rfl rfl rfl rfl rfl rfl

/-- C4 counterexample: the claim covers every produced span "whether or
not a parent exists in context", but a child span built while the
context carries no parent has no `trace.span_id` field at all. -/
theorem C4_orphan_child_lacks_span_id :
    fieldsAt (buildDBEventFields none [] "" none "main.query" "G") "trace.span_id"
      = none := rfl

/-- C4 (amended): every root span, and every child span created with a
parent present in context, carries a non-empty `span_id` (given that the
ID generator yields non-empty strings), and `trace.parent_id` is present
iff the span is not the root: absent on a root span built from an event
that did not already carry one, present on a child whose in-context
parent has a `trace.span_id`. -/
theorem C4_span_id_invariant (req : Request) (ev : Event) (g1 g2 : String)
    (hpe : fieldsAt ev "trace.parent_id" = none) (hg2 : g2 ≠ "")
    (parentEv cev : Event) (g : String) (hg : g ≠ "") (s : FieldValue)
    (hs : fieldsAt parentEv "trace.span_id" = some s) :
    (∃ a, fieldsAt (AddRequestProps req ev g1 g2) "trace.span_id"
        = some (FieldValue.vStr a) ∧ a ≠ "") ∧
    fieldsAt (AddRequestProps req ev g1 g2) "trace.parent_id" = none ∧
    (∃ a, fieldsAt (addTraceID (some parentEv) cev g) "trace.span_id"
        = some (FieldValue.vStr a) ∧ a ≠ "") ∧
    (∃ v, fieldsAt (addTraceID (some parentEv) cev g) "trace.parent_id" = some v) := by
  have hfr : ∀ ev0 : Event,
      fieldsAt (parseTraceHeader req.awsHeader req.requestID g1 ev0).1 "trace.parent_id"
        = fieldsAt ev0 "trace.parent_id" := fun ev0 =>
    parseTraceHeader_fieldsAt_frame _ _ _ ev0 _ awsKey_ne_parent_id (by decide)
  refine ⟨⟨g2, ?_, hg2⟩, ?_, ⟨g, ?_, hg⟩, ⟨s, ?_⟩⟩
  · simp [AddRequestProps]
  · simp [AddRequestProps, hfr, hpe]
  · simp [addTraceID, hs]
  · simp [addTraceID, hs]

/-- Witness for the amended C4 at a concrete request (with an AWS header
present) and a concrete parent. -/
theorem C4_span_id_invariant_witness :
    (∃ a, fieldsAt (AddRequestProps
        ⟨"GET", "/", "example.com", "HTTP/1.1", 0, "127.0.0.1:1234", "ua",
          "Root=1-111;bogus", ""⟩ [] "GA" "GB") "trace.span_id"
        = some (FieldValue.vStr a) ∧ a ≠ "") ∧
    fieldsAt (AddRequestProps
        ⟨"GET", "/", "example.com", "HTTP/1.1", 0, "127.0.0.1:1234", "ua",
          "Root=1-111;bogus", ""⟩ [] "GA" "GB") "trace.parent_id" = none ∧
    (∃ a, fieldsAt (addTraceID (some [("trace.span_id", FieldValue.vStr "S")]) [] "G")
        "trace.span_id" = some (FieldValue.vStr a) ∧ a ≠ "") ∧
    (∃ v, fieldsAt (addTraceID (some [("trace.span_id", FieldValue.vStr "S")]) [] "G")
        "trace.parent_id" = some v) :=
  C4_span_id_invariant
    ⟨"GET", "/", "example.com", "HTTP/1.1", 0, "127.0.0.1:1234", "ua",
      "Root=1-111;bogus", ""⟩ [] "GA" "GB" rfl (by decide)
    [("trace.span_id", FieldValue.vStr "S")] [] "G" (by decide)
    (FieldValue.vStr "S") rfl

/-- C7: for a request lacking both tracing headers, the root span's
`trace.trace_id` and `trace.span_id` are exactly the two freshly drawn
identifiers — non-empty whenever the generator's outputs are — and two
invocations whose generator draws differ produce different identifiers. -/
theorem C7_no_headers_fresh_ids (req : Request) (ev ev' : Event)
    (g1 g2 g1' g2' : String)
    (ha : req.awsHeader = "") (hr : req.requestID = "")
    (h1 : g1 ≠ "") (h2 : g2 ≠ "") (h3 : g1 ≠ g1') (h4 : g2 ≠ g2') :
    fieldsAt (AddRequestProps req ev g1 g2) "trace.trace_id"
      = some (FieldValue.vStr g1) ∧
    fieldsAt (AddRequestProps req ev g1 g2) "trace.span_id"
      = some (FieldValue.vStr g2) ∧
    g1 ≠ "" ∧ g2 ≠ "" ∧
    fieldsAt (AddRequestProps req ev g1 g2) "trace.trace_id"
      ≠ fieldsAt (AddRequestProps req ev' g1' g2') "trace.trace_id" ∧
    fieldsAt (AddRequestProps req ev g1 g2) "trace.span_id"
      ≠ fieldsAt (AddRequestProps req ev' g1' g2') "trace.span_id" := by
  simp [AddRequestProps, parseTraceHeader, ha, hr, h1, h2, h3, h4]

/-- Witness for C7 at a concrete headerless request and two distinct
generator draws. -/
theorem C7_no_headers_fresh_ids_witness :
    fieldsAt (AddRequestProps
      ⟨"GET", "/", "example.com", "HTTP/1.1", 0, "127.0.0.1:1234", "ua", "", ""⟩
      [] "aaa" "bbb") "trace.trace_id" = some (FieldValue.vStr "aaa") ∧
    fieldsAt (AddRequestProps
      ⟨"GET", "/", "example.com", "HTTP/1.1", 0, "127.0.0.1:1234", "ua", "", ""⟩
      [] "aaa" "bbb") "trace.span_id" = some (FieldValue.vStr "bbb") ∧
    ("aaa" : String) ≠ "" ∧ ("bbb" : String) ≠ "" ∧
    fieldsAt (AddRequestProps
      ⟨"GET", "/", "example.com", "HTTP/1.1", 0, "127.0.0.1:1234", "ua", "", ""⟩
      [] "aaa" "bbb") "trace.trace_id"
      ≠ fieldsAt (AddRequestProps
      ⟨"GET", "/", "example.com", "HTTP/1.1", 0, "127.0.0.1:1234", "ua", "", ""⟩
      [] "ccc" "ddd") "trace.trace_id" ∧
    fieldsAt (AddRequestProps
      ⟨"GET", "/", "example.com", "HTTP/1.1", 0, "127.0.0.1:1234", "ua", "", ""⟩
      [] "aaa" "bbb") "trace.span_id"
      ≠ fieldsAt (AddRequestProps
      ⟨"GET", "/", "example.com", "HTTP/1.1", 0, "127.0.0.1:1234", "ua", "", ""⟩
      [] "ccc" "ddd") "trace.span_id" :=
  C7_no_headers_fresh_ids
    ⟨"GET", "/", "example.com", "HTTP/1.1", 0, "127.0.0.1:1234", "ua", "", ""⟩
    [] [] "aaa" "bbb" "ccc" "ddd" rfl rfl (by decide) (by decide) (by decide)
    (by decide)

/-- C9: the unsynchronized read-then-write of `rollup` loses updates
under interleaving. When two `finish` calls for children of the same
parent both run their read phase before either write phase (the race the
source's own comment concedes: "this is racy and will stomp each
other"), the parent ends with `totals.db_count = 1` and
`totals.db_duration_ms = 20` where the sequential sums for durations 10
and 20 would be a count of 2 and a duration of 30. -/
theorem C9_concurrent_rollups_lose_updates :
    (let c : Event := [("meta.type", FieldValue.vStr "db"),
       ("db.call", FieldValue.vStr "query")]
     let snap := rollupRead [] c
     let afterBoth := rollupWrite (rollupWrite [] c snap 10) c snap 20
     fieldsAt afterBoth "totals.db_count" = some (FieldValue.vInt 1) ∧
     fieldsAt afterBoth "totals.db_duration_ms" = some (FieldValue.vFloat 20)) := by
  simp [rollupRead, rollupWrite, goStr, asInt, asFloat, fieldsAt, addField]

/-- C10: with a parent in context, `rollup` writes exactly the four
`totals.*` keys derived from the child's `meta.type` and `db.call`
fields — every other parent field reads back unchanged — and each
counter is the prior value plus this call's contribution, where an
absent or non-numeric prior value reads as zero (`asInt`/`asFloat`)
rather than failing. -/
theorem C10_rollup_frame (p ev : Event) (dur : ℚ) :
    ∃ q, rollup (some p) ev dur = some q ∧
      (∀ k,
        k ≠ "totals." ++ goStr (fieldsAt ev "meta.type") ++ "_count" →
        k ≠ "totals." ++ goStr (fieldsAt ev "meta.type") ++ "_duration_ms" →
        k ≠ "totals." ++ goStr (fieldsAt ev "meta.type") ++ "_"
              ++ goStr (fieldsAt ev "db.call") ++ "_count" →
        k ≠ "totals." ++ goStr (fieldsAt ev "meta.type") ++ "_"
              ++ goStr (fieldsAt ev "db.call") ++ "_duration_ms" →
        fieldsAt q k = fieldsAt p k) ∧
      fieldsAt q ("totals." ++ goStr (fieldsAt ev "meta.type") ++ "_count")
        = some (FieldValue.vInt (asInt (fieldsAt p
            ("totals." ++ goStr (fieldsAt ev "meta.type") ++ "_count")) + 1)) ∧
      fieldsAt q ("totals." ++ goStr (fieldsAt ev "meta.type") ++ "_duration_ms")
        = some (FieldValue.vFloat (asFloat (fieldsAt p
            ("totals." ++ goStr (fieldsAt ev "meta.type") ++ "_duration_ms")) + dur)) ∧
      fieldsAt q ("totals." ++ goStr (fieldsAt ev "meta.type") ++ "_"
            ++ goStr (fieldsAt ev "db.call") ++ "_count")
        = some (FieldValue.vInt (asInt (fieldsAt p
            ("totals." ++ goStr (fieldsAt ev "meta.type") ++ "_"
              ++ goStr (fieldsAt ev "db.call") ++ "_count")) + 1)) ∧
      fieldsAt q ("totals." ++ goStr (fieldsAt ev "meta.type") ++ "_"
            ++ goStr (fieldsAt ev "db.call") ++ "_duration_ms")
        = some (FieldValue.vFloat (asFloat (fieldsAt p
            ("totals." ++ goStr (fieldsAt ev "meta.type") ++ "_"
              ++ goStr (fieldsAt ev "db.call") ++ "_duration_ms")) + dur)) := by
  have e1 := k2_ne_k1 (goStr (fieldsAt ev "meta.type"))
  have e2 := k3_ne_k1 (goStr (fieldsAt ev "meta.type")) (goStr (fieldsAt ev "db.call"))
  have e3 := k4_ne_k1 (goStr (fieldsAt ev "meta.type")) (goStr (fieldsAt ev "db.call"))
  have e4 := k3_ne_k2 (goStr (fieldsAt ev "meta.type")) (goStr (fieldsAt ev "db.call"))
  have e5 := k4_ne_k2 (goStr (fieldsAt ev "meta.type")) (goStr (fieldsAt ev "db.call"))
  have e6 := k4_ne_k3 (goStr (fieldsAt ev "meta.type")) (goStr (fieldsAt ev "db.call"))
  refine ⟨_, rfl, ?_, ?_, ?_, ?_, ?_⟩
  · intro k h1 h2 h3 h4
    simp [rollup, Ne.symm h1, Ne.symm h2, Ne.symm h3, Ne.symm h4]
  · simp [rollup, e3, e2, e1]
  · simp [rollup, e5, e4]
  · simp [rollup, e6]
  · simp [rollup]

/-- Witness for C10: a parent with a non-numeric prior counter and an
unrelated field, a db/query child, duration 7: the unrelated field is
untouched and the bogus counter restarts from zero. -/
theorem C10_rollup_frame_witness :
    ∃ q, rollup (some [("totals.db_count", FieldValue.vStr "bogus"),
        ("x", FieldValue.vInt 9)])
        [("meta.type", FieldValue.vStr "db"), ("db.call", FieldValue.vStr "query")]
        7 = some q ∧
      fieldsAt q "x" = some (FieldValue.vInt 9) ∧
      fieldsAt q "totals.db_count" = some (FieldValue.vInt 1) ∧
      fieldsAt q "totals.db_query_duration_ms" = some (FieldValue.vFloat 7) := by
  obtain ⟨q, hq, hframe, h1, h2, h3, h4⟩ := C10_rollup_frame
    [("totals.db_count", FieldValue.vStr "bogus"), ("x", FieldValue.vInt 9)]
    [("meta.type", FieldValue.vStr "db"), ("db.call", FieldValue.vStr "query")] 7
  refine ⟨q, hq,
    (hframe "x" (by decide) (by decide) (by decide) (by decide)).trans rfl,
    h1.trans (by decide), h4.trans ?_⟩
  show some (FieldValue.vFloat ((0 : ℚ) + 7)) = some (FieldValue.vFloat 7)
  norm_num

end Beeline
